import Mathlib

/-!
Verification of the OpenTTD script API slice: the ambient script context
(ScriptObject, declared in src/script/api/script_object.hpp) and the waypoint
list builders (src/script/api/script_waypointlist.cpp).

Part 1 embeds the engine world data that the list builders consume and the two
list constructors, translated from script_waypointlist.cpp.  The engine data
model (waypoints, vehicles, orders, the current company) is an external
collaborator of the snippet; it is represented by plain structures carrying
exactly the fields the constructors read.
-/

/-- Sentinel owner meaning unowned or neutral (OWNER_NONE in the engine). -/
def OWNER_NONE : Nat := 0x10

/-- Order types, as far as the snippet distinguishes them (OrderType in the
engine; the constructor only tests for OT_GOTO_WAYPOINT). -/
inductive OrderType where
  | OT_NOTHING
  | OT_GOTO_STATION
  | OT_GOTO_DEPOT
  | OT_GOTO_WAYPOINT
deriving DecidableEq, Repr

/-- One order of a vehicle order chain: its type and its destination id. -/
structure Order where
  otype : OrderType
  dest : Nat
deriving DecidableEq, Repr

/-- A vehicle as the list builders see it: id, owning company, order chain. -/
structure Vehicle where
  id : Nat
  owner : Nat
  orders : List Order
deriving DecidableEq, Repr

/-- A waypoint as the list builders see it: pool index, facilities bitset,
owning company. -/
structure Waypoint where
  index : Nat
  facilities : Nat
  owner : Nat
deriving DecidableEq, Repr

/-- The slice of engine world state the list builders read: every waypoint,
every vehicle, and the current company global. -/
structure WorldState where
  waypoints : List Waypoint
  vehicles : List Vehicle
  current_company : Nat
deriving DecidableEq, Repr

/-- ScriptList.AddItem: the underlying container is a set, so adding an item
already present leaves the list unchanged. -/
def scriptList_AddItem (l : List Nat) (x : Nat) : List Nat :=
  if x ∈ l then l else l ++ [x]

/-- The iteration pattern shared by both constructors: walk the input
collection, and AddItem the key of every element that passes the filter. -/
def addItemsFrom (keep : α → Bool) (key : α → Nat) : List α → List Nat → List Nat
  | [], acc => acc
  | x :: xs, acc => addItemsFrom keep key xs (if keep x then scriptList_AddItem acc (key x) else acc)

/-- ScriptWaypointList::ScriptWaypointList: FOR_ALL_WAYPOINTS, AddItem the
index of every waypoint whose facilities intersect waypoint_type and whose
owner is the current company or OWNER_NONE. -/
def ScriptWaypointList (world : WorldState) (waypoint_type : Nat) : List Nat :=
  addItemsFrom
    (fun wp => decide (Nat.land wp.facilities waypoint_type ≠ 0) &&
      (wp.owner == world.current_company || wp.owner == OWNER_NONE))
    (fun wp => wp.index) world.waypoints []

/-- Modelled from the spec: ScriptVehicle::IsValidVehicle is declared outside
this snippet; per the spec a vehicle id is valid when it names a vehicle of
the engine world that is owned by the current company. -/
def IsValidVehicle (world : WorldState) (vehicle_id : Nat) : Bool :=
  world.vehicles.any (fun v => v.id == vehicle_id && v.owner == world.current_company)

/-- Vehicle::Get: fetch the vehicle with the given id from the engine world. -/
def vehicle_Get (world : WorldState) (vehicle_id : Nat) : Option Vehicle :=
  world.vehicles.find? (fun v => v.id == vehicle_id)

/-- ScriptWaypointList_Vehicle::ScriptWaypointList_Vehicle: empty unless the
vehicle id is valid; otherwise walk the order chain and AddItem the
destination of every OT_GOTO_WAYPOINT order. -/
def ScriptWaypointList_Vehicle (world : WorldState) (vehicle_id : Nat) : List Nat :=
  if !IsValidVehicle world vehicle_id then [] else
  match vehicle_Get world vehicle_id with
  | none => []
  | some v =>
      addItemsFrom (fun o => o.otype == OrderType.OT_GOTO_WAYPOINT) (fun o => o.dest) v.orders []

theorem mem_scriptList_AddItem {l : List Nat} {x y : Nat} :
    y ∈ scriptList_AddItem l x ↔ y ∈ l ∨ y = x := by
  unfold scriptList_AddItem
  split
  · rename_i hx
    constructor
    · exact fun h => Or.inl h
    · rintro (h | rfl)
      · exact h
      · exact hx
  · simp

theorem scriptList_AddItem_Nodup {l : List Nat} {x : Nat} (h : l.Nodup) :
    (scriptList_AddItem l x).Nodup := by
  unfold scriptList_AddItem
  split
  · exact h
  · rename_i hx
    simp [List.nodup_append, h, hx]

theorem mem_addItemsFrom (keep : α → Bool) (key : α → Nat) :
    ∀ (xs : List α) (acc : List Nat) (y : Nat),
      y ∈ addItemsFrom keep key xs acc ↔ y ∈ acc ∨ ∃ x ∈ xs, keep x = true ∧ key x = y := by
  intro xs
  induction xs with
  | nil => intro acc y; simp [addItemsFrom]
  | cons x xs ih =>
    intro acc y
    rw [addItemsFrom, ih]
    by_cases hk : keep x = true
    · simp only [hk, if_pos, mem_scriptList_AddItem]
      constructor
      · rintro ((h | rfl) | ⟨z, hz, hkz, rfl⟩)
        · exact Or.inl h
        · exact Or.inr ⟨x, by simp, hk, rfl⟩
        · exact Or.inr ⟨z, by simp [hz], hkz, rfl⟩
      · rintro (h | ⟨z, hz, hkz, rfl⟩)
        · exact Or.inl (Or.inl h)
        · rcases List.mem_cons.mp hz with rfl | hz
          · exact Or.inl (Or.inr rfl)
          · exact Or.inr ⟨z, hz, hkz, rfl⟩
    · simp only [hk, if_neg, Bool.false_eq_true, not_false_iff]
      constructor
      · rintro (h | ⟨z, hz, hkz, rfl⟩)
        · exact Or.inl h
        · exact Or.inr ⟨z, by simp [hz], hkz, rfl⟩
      · rintro (h | ⟨z, hz, hkz, rfl⟩)
        · exact Or.inl h
        · rcases List.mem_cons.mp hz with rfl | hz
          · exact absurd hkz hk
          · exact Or.inr ⟨z, hz, hkz, rfl⟩

theorem addItemsFrom_Nodup (keep : α → Bool) (key : α → Nat) :
    ∀ (xs : List α) (acc : List Nat), acc.Nodup → (addItemsFrom keep key xs acc).Nodup := by
  intro xs
  induction xs with
  | nil => intro acc h; exact h
  | cons x xs ih =>
    intro acc h
    rw [addItemsFrom]
    split
    · exact ih _ (scriptList_AddItem_Nodup h)
    · exact ih _ h

/-- Company C1 world for concrete scenarios: current company 1. -/
def exWorldEmpty : WorldState :=
  { waypoints := [], vehicles := [{ id := 5, owner := 2, orders := [] }], current_company := 1 }

/-- The vehicle of scenario S5: owned by company 1, order chain
[GOTO_WAYPOINT 10, GOTO_STATION 20, GOTO_WAYPOINT 30, GOTO_WAYPOINT 10]. -/
def exV1 : Vehicle :=
  { id := 1, owner := 1,
    orders := [
      { otype := OrderType.OT_GOTO_WAYPOINT, dest := 10 },
      { otype := OrderType.OT_GOTO_STATION, dest := 20 },
      { otype := OrderType.OT_GOTO_WAYPOINT, dest := 30 },
      { otype := OrderType.OT_GOTO_WAYPOINT, dest := 10 }] }

/-- World of scenario S5. -/
def exWorldS5 : WorldState :=
  { waypoints := [], vehicles := [exV1], current_company := 1 }

example : ScriptWaypointList_Vehicle exWorldS5 1 = [10, 30] := by decide

/-- World for the S4-style filter check: W1 rail owned by company 1, W2 bus
owned by company 1, W3 rail unowned, W4 rail owned by company 2. -/
def exWorldS4 : WorldState :=
  { waypoints := [
      { index := 1, facilities := 1, owner := 1 },
      { index := 2, facilities := 2, owner := 1 },
      { index := 3, facilities := 1, owner := OWNER_NONE },
      { index := 4, facilities := 1, owner := 2 }],
    vehicles := [], current_company := 1 }

example : ScriptWaypointList exWorldS4 1 = [1, 3] := by decide

/-- Claim C2: for every waypoint type t and every world state,
ScriptWaypointList(t) contains exactly the indices of the waypoints whose
facilities intersect t and whose owner is the current company or OWNER_NONE. -/
theorem waypointList_mem_iff (world : WorldState) (t idx : Nat) :
    idx ∈ ScriptWaypointList world t ↔
      ∃ wp ∈ world.waypoints, Nat.land wp.facilities t ≠ 0 ∧
        (wp.owner = world.current_company ∨ wp.owner = OWNER_NONE) ∧ wp.index = idx := by
  unfold ScriptWaypointList
  rw [mem_addItemsFrom]
  simp only [List.not_mem_nil, false_or, Bool.and_eq_true, Bool.or_eq_true, beq_iff_eq,
    decide_eq_true_eq]
  constructor
  · rintro ⟨wp, hmem, ⟨hf, ho⟩, hidx⟩
    exact ⟨wp, hmem, hf, ho, hidx⟩
  · rintro ⟨wp, hmem, hf, ho, hidx⟩
    exact ⟨wp, hmem, ⟨hf, ho⟩, hidx⟩

/-- Claim C3: when the vehicle id is not a valid vehicle owned by the current
company, ScriptWaypointList_Vehicle produces the empty list. -/
theorem waypointList_vehicle_invalid_empty (world : WorldState) (vehicle_id : Nat)
    (h : IsValidVehicle world vehicle_id = false) :
    ScriptWaypointList_Vehicle world vehicle_id = [] := by
  unfold ScriptWaypointList_Vehicle
  rw [h]
  rfl

/-- Witness for claim C3: vehicle 5 exists but belongs to company 2 while the
current company is 1, so its waypoint list is empty. -/
theorem waypointList_vehicle_invalid_empty_witness :
    IsValidVehicle exWorldEmpty 5 = false ∧ ScriptWaypointList_Vehicle exWorldEmpty 5 = [] :=
  ⟨by decide, waypointList_vehicle_invalid_empty exWorldEmpty 5 (by decide)⟩

/-- Claim C4: for a vehicle of the current company, the list contains exactly
the destinations of the OT_GOTO_WAYPOINT orders of its chain, and duplicate
destinations yield a single entry (the result has no duplicates). -/
theorem waypointList_vehicle_mem_iff (world : WorldState) (vehicle_id : Nat) (v : Vehicle)
    (d : Nat) (hget : vehicle_Get world vehicle_id = some v)
    (howner : v.owner = world.current_company) :
    (d ∈ ScriptWaypointList_Vehicle world vehicle_id ↔
      ∃ o ∈ v.orders, o.otype = OrderType.OT_GOTO_WAYPOINT ∧ o.dest = d) ∧
    (ScriptWaypointList_Vehicle world vehicle_id).Nodup := by
  have hid : (v.id == vehicle_id) = true := by
    have := List.find?_some hget
    exact this
  have hmem : v ∈ world.vehicles := List.mem_of_find?_eq_some hget
  have hvalid : IsValidVehicle world vehicle_id = true := by
    unfold IsValidVehicle
    rw [List.any_eq_true]
    exact ⟨v, hmem, by rw [Bool.and_eq_true]; exact ⟨hid, beq_iff_eq.mpr howner⟩⟩
  unfold ScriptWaypointList_Vehicle
  rw [hvalid, hget]
  simp only [Bool.not_true, Bool.false_eq_true, if_false]
  constructor
  · rw [mem_addItemsFrom]
    simp only [List.not_mem_nil, false_or, beq_iff_eq]
  · exact addItemsFrom_Nodup _ _ _ _ List.nodup_nil

/-- Witness for claim C4: scenario S5, destination 10 appears once although
two GOTO_WAYPOINT orders target it; destination 30 is the only other entry. -/
theorem waypointList_vehicle_mem_iff_witness :
    vehicle_Get exWorldS5 1 = some exV1 ∧ exV1.owner = exWorldS5.current_company ∧
    ((10 ∈ ScriptWaypointList_Vehicle exWorldS5 1 ↔
        ∃ o ∈ exV1.orders, o.otype = OrderType.OT_GOTO_WAYPOINT ∧ o.dest = 10) ∧
      (ScriptWaypointList_Vehicle exWorldS5 1).Nodup) :=
  ⟨by decide, by decide, waypointList_vehicle_mem_iff exWorldS5 1 exV1 10 (by decide) (by decide)⟩

/-- Vehicle for the C10 contrast: owned by company 1, one GOTO_WAYPOINT order
targeting waypoint 10. -/
def exVC10 : Vehicle :=
  { id := 1, owner := 1, orders := [{ otype := OrderType.OT_GOTO_WAYPOINT, dest := 10 }] }

/-- World for the C10 contrast: one rail waypoint with index 10 owned by the
current company, and vehicle 1 with a GOTO_WAYPOINT order to it. -/
def exWorldC10 : WorldState :=
  { waypoints := [{ index := 10, facilities := 1, owner := 1 }],
    vehicles := [exVC10],
    current_company := 1 }

/-- The same world with the waypoint handed to company 2 (foreign-owned). -/
def exWorldC10f : WorldState :=
  { waypoints := [{ index := 10, facilities := 1, owner := 2 }],
    vehicles := [exVC10],
    current_company := 1 }

/-- Claim C10: ScriptWaypointList_Vehicle applies no ownership or existence
filter to the waypoints themselves: its result does not depend on the world
waypoint set at all, so a GOTO_WAYPOINT destination is listed even when the
waypoint is foreign-owned; ScriptWaypointList, by contrast, drops the same
waypoint once it is foreign-owned. -/
theorem waypointList_vehicle_no_owner_filter :
    (∀ (world : WorldState) (ws : List Waypoint) (vehicle_id : Nat),
      ScriptWaypointList_Vehicle { world with waypoints := ws } vehicle_id =
        ScriptWaypointList_Vehicle world vehicle_id) ∧
    ScriptWaypointList_Vehicle exWorldC10 1 = [10] ∧
    ScriptWaypointList_Vehicle exWorldC10f 1 = [10] ∧
    ScriptWaypointList exWorldC10 1 = [10] ∧
    ScriptWaypointList exWorldC10f 1 = [] :=
  ⟨fun _ _ _ => rfl, by decide, by decide, by decide, by decide⟩

/-!
Part 2: the ambient script context behind ScriptObject.  The header
script_object.hpp only declares these operations; their bodies live outside
the snippet, so the definitions below are modelled from the spec (sections 3,
4.1-4.3 and 7) and say so in their doc comments.  Script instances are
identified by naturals; the engine world seen by DoCommand is opaque and also
represented by a natural.
-/

/-- Error taxonomy of the spec, section 7: no error set. -/
def ERR_NONE : Nat := 0

/-- Error taxonomy of the spec, section 7: command attempted when CanSuspend
is false, or accessor invoked with empty active-instance stack. -/
def ERR_PRECONDITION_FAILED : Nat := 1

/-- Error taxonomy of the spec, section 7: reference to an entity that does
not exist or is not visible to the current company. -/
def ERR_INVALID_ENTITY : Nat := 2

/-- Error taxonomy of the spec, section 7: the engine dispatcher reported
failure. -/
def ERR_COMMAND_FAILED : Nat := 3

/-- Sentinel for the default, invalid entity id. -/
def INVALID_ENTITY_ID : Nat := 0xFFFF

/-- Largest value of the signed 64-bit Money type. -/
def MONEY_MAX : Int := 9223372036854775807

/-- Smallest value of the signed 64-bit Money type. -/
def MONEY_MIN : Int := -9223372036854775808

/-- Clamp an integer into the Money range. -/
def moneyClamp (x : Int) : Int :=
  if x > MONEY_MAX then MONEY_MAX else if x < MONEY_MIN then MONEY_MIN else x

/-- Modelled from the spec: Money addition saturates on overflow instead of
wrapping (spec section 4.3, IncreaseDoCommandCosts). -/
def moneySatAdd (x y : Int) : Int := moneyClamp (x + y)

/-- Modelled from the spec: callback scratch indices are bounded to a small
fixed range agreed with the engine; the spec names 8 as the typical bound. -/
def CALLBACK_VAR_COUNT : Nat := 8

/-- Modelled from the spec: the per-instance Context Store (spec section 3),
one per script instance, holding every ambient field the accessor facade
reads and writes.  The mode hook is a zero-argument predicate; its shallow
embedding is the boolean it returns, so mode_proc is none when no hook is
installed and some b when a hook returning b is installed. -/
structure ScriptContext where
  costs : Int := 0
  last_cost : Int := 0
  last_error : Nat := ERR_NONE
  last_cmd_result : Bool := false
  road_type : Nat := 0
  rail_type : Nat := 0
  mode_proc : Option Bool := none
  mode_instance : Option Nat := none
  cmd_delay : Nat := 0
  allow_do_command : Bool := true
  new_vehicle_id : Nat := INVALID_ENTITY_ID
  new_sign_id : Nat := INVALID_ENTITY_ID
  new_group_id : Nat := INVALID_ENTITY_ID
  new_tunnel_endtile : Nat := INVALID_ENTITY_ID
  callback_vars : Nat → Int := fun _ => 0

/-- Modelled from the spec: the ambient state every static ScriptObject
accessor sees.  active is the resolved current active instance (the top of
the Active-Instance Stack), contexts is the per-instance Context store, world
is the opaque engine world, and safe_to_suspend is the host runtime hook
current_safe_to_suspend of spec section 6. -/
structure ScriptState where
  active : Nat
  contexts : Nat → ScriptContext
  world : Nat
  safe_to_suspend : Bool

/-- The Context of the current active instance. -/
def currentCtx (s : ScriptState) : ScriptContext := s.contexts s.active

/-- Apply an update to the Context of the current active instance only. -/
def updCtx (s : ScriptState) (f : ScriptContext → ScriptContext) : ScriptState :=
  { s with contexts := fun i => if i = s.active then f (s.contexts i) else s.contexts i }

/-- A fresh context store: every instance starts from the default Context. -/
def newScriptContext : ScriptContext := {}

/-- The ambient state at the start of a scripted call into instance inst,
before any accessor has run: every Context at its defaults, host runtime at a
safe suspension point. -/
def initScriptState (inst : Nat) : ScriptState :=
  { active := inst, contexts := fun _ => newScriptContext, world := 0, safe_to_suspend := true }

/-- ScriptObject::ActiveInstance, the scoped activation value: it stores the
previously active instance in last_active (script_object.hpp line 53). -/
structure ActiveInstance where
  last_active : Option Nat

/-- Modelled from the spec: the ActiveInstance constructor is push(instance),
declared in script_object.hpp but defined outside the snippet; it records the
current top as saved and sets the top to the new instance.  Returns the
scoped-activation value and the new top. -/
def ActiveInstance_create (inst : Nat) (active : Option Nat) : ActiveInstance × Option Nat :=
  ({ last_active := active }, some inst)

/-- Modelled from the spec: the ActiveInstance destructor is pop(saved),
declared in script_object.hpp but defined outside the snippet; it restores
the top to the saved previous top, whatever the current top is. -/
def ActiveInstance_destroy (a : ActiveInstance) (_current : Option Nat) : Option Nat :=
  a.last_active

/-- Modelled from the spec: ScriptObject::SetLastCommandRes, declared in
script_object.hpp but defined outside the snippet; Set writes the field on
the Context of the current active instance. -/
def SetLastCommandRes (res : Bool) (s : ScriptState) : ScriptState :=
  updCtx s (fun c => { c with last_cmd_result := res })

/-- Modelled from the spec: ScriptObject::GetLastCommandRes. -/
def GetLastCommandRes (s : ScriptState) : Bool := (currentCtx s).last_cmd_result

/-- Modelled from the spec: ScriptObject::SetDoCommandCosts. -/
def SetDoCommandCosts (value : Int) (s : ScriptState) : ScriptState :=
  updCtx s (fun c => { c with costs := value })

/-- Modelled from the spec: ScriptObject::IncreaseDoCommandCosts adds the
amount to the costs accumulator, saturating on overflow. -/
def IncreaseDoCommandCosts (value : Int) (s : ScriptState) : ScriptState :=
  updCtx s (fun c => { c with costs := moneySatAdd c.costs value })

/-- Modelled from the spec: ScriptObject::GetDoCommandCosts. -/
def GetDoCommandCosts (s : ScriptState) : Int := (currentCtx s).costs

/-- Modelled from the spec: ScriptObject::SetLastError. -/
def SetLastError (last_error : Nat) (s : ScriptState) : ScriptState :=
  updCtx s (fun c => { c with last_error := last_error })

/-- Modelled from the spec: ScriptObject::GetLastError. -/
def GetLastError (s : ScriptState) : Nat := (currentCtx s).last_error

/-- Modelled from the spec: ScriptObject::SetRoadType. -/
def SetRoadType (road_type : Nat) (s : ScriptState) : ScriptState :=
  updCtx s (fun c => { c with road_type := road_type })

/-- Modelled from the spec: ScriptObject::GetRoadType. -/
def GetRoadType (s : ScriptState) : Nat := (currentCtx s).road_type

/-- Modelled from the spec: ScriptObject::SetRailType. -/
def SetRailType (rail_type : Nat) (s : ScriptState) : ScriptState :=
  updCtx s (fun c => { c with rail_type := rail_type })

/-- Modelled from the spec: ScriptObject::GetRailType. -/
def GetRailType (s : ScriptState) : Nat := (currentCtx s).rail_type

/-- Modelled from the spec: ScriptObject::SetDoCommandMode installs the mode
hook together with the API object that owns it. -/
def SetDoCommandMode (proc : Option Bool) (mode_instance : Option Nat) (s : ScriptState) :
    ScriptState :=
  updCtx s (fun c => { c with mode_proc := proc, mode_instance := mode_instance })

/-- Modelled from the spec: ScriptObject::GetDoCommandMode. -/
def GetDoCommandMode (s : ScriptState) : Option Bool := (currentCtx s).mode_proc

/-- Modelled from the spec: ScriptObject::GetDoCommandModeInstance. -/
def GetDoCommandModeInstance (s : ScriptState) : Option Nat := (currentCtx s).mode_instance

/-- Modelled from the spec: ScriptObject::SetDoCommandDelay. -/
def SetDoCommandDelay (ticks : Nat) (s : ScriptState) : ScriptState :=
  updCtx s (fun c => { c with cmd_delay := ticks })

/-- Modelled from the spec: ScriptObject::GetDoCommandDelay. -/
def GetDoCommandDelay (s : ScriptState) : Nat := (currentCtx s).cmd_delay

/-- Modelled from the spec: ScriptObject::SetAllowDoCommand. -/
def SetAllowDoCommand (allow : Bool) (s : ScriptState) : ScriptState :=
  updCtx s (fun c => { c with allow_do_command := allow })

/-- Modelled from the spec: ScriptObject::GetAllowDoCommand. -/
def GetAllowDoCommand (s : ScriptState) : Bool := (currentCtx s).allow_do_command

/-- Modelled from the spec: ScriptObject::SetLastCost. -/
def SetLastCost (last_cost : Int) (s : ScriptState) : ScriptState :=
  updCtx s (fun c => { c with last_cost := last_cost })

/-- Modelled from the spec: ScriptObject::GetLastCost. -/
def GetLastCost (s : ScriptState) : Int := (currentCtx s).last_cost

/-- Modelled from the spec: ScriptObject::SetNewVehicleID. -/
def SetNewVehicleID (vehicle_id : Nat) (s : ScriptState) : ScriptState :=
  updCtx s (fun c => { c with new_vehicle_id := vehicle_id })

/-- Modelled from the spec: ScriptObject::GetNewVehicleID. -/
def GetNewVehicleID (s : ScriptState) : Nat := (currentCtx s).new_vehicle_id

/-- Modelled from the spec: ScriptObject::SetNewSignID. -/
def SetNewSignID (sign_id : Nat) (s : ScriptState) : ScriptState :=
  updCtx s (fun c => { c with new_sign_id := sign_id })

/-- Modelled from the spec: ScriptObject::GetNewSignID. -/
def GetNewSignID (s : ScriptState) : Nat := (currentCtx s).new_sign_id

/-- Modelled from the spec: ScriptObject::SetNewGroupID. -/
def SetNewGroupID (group_id : Nat) (s : ScriptState) : ScriptState :=
  updCtx s (fun c => { c with new_group_id := group_id })

/-- Modelled from the spec: ScriptObject::GetNewGroupID. -/
def GetNewGroupID (s : ScriptState) : Nat := (currentCtx s).new_group_id

/-- Modelled from the spec: ScriptObject::SetNewTunnelEndtile. -/
def SetNewTunnelEndtile (tile : Nat) (s : ScriptState) : ScriptState :=
  updCtx s (fun c => { c with new_tunnel_endtile := tile })

/-- Modelled from the spec: ScriptObject::GetNewTunnelEndtile. -/
def GetNewTunnelEndtile (s : ScriptState) : Nat := (currentCtx s).new_tunnel_endtile

/-- Modelled from the spec: ScriptObject::SetCallbackVariable writes one
scratch slot of the current Context; indices are bounded to the agreed fixed
range. -/
def SetCallbackVariable (index : Nat) (value : Int) (s : ScriptState) : ScriptState :=
  if index < CALLBACK_VAR_COUNT then
    updCtx s (fun c =>
      { c with callback_vars := fun j => if j = index then value else c.callback_vars j })
  else s

/-- Modelled from the spec: ScriptObject::GetCallbackVariable reads one
scratch slot of the current Context. -/
def GetCallbackVariable (index : Nat) (s : ScriptState) : Int :=
  if index < CALLBACK_VAR_COUNT then (currentCtx s).callback_vars index else 0

/-- Modelled from the spec: ScriptObject::CanSuspend holds iff the host
runtime is at a safe suspension point and allow_do_command is true. -/
def CanSuspend (s : ScriptState) : Bool :=
  s.safe_to_suspend && GetAllowDoCommand s

/-- The arguments of a command, as passed to ScriptObject::DoCommand (the
text and callback arguments play no role in the claims and are omitted). -/
structure Cmd where
  tile : Nat
  p1 : Nat
  p2 : Nat
  cmd : Nat
deriving DecidableEq, Repr

/-- The shape of one dispatcher result, spec section 6: success flag, cost,
error code and optional newly created entity id. -/
structure CmdOutcome where
  success : Bool
  cost : Int
  error : Nat
  new_vehicle_id : Option Nat
deriving DecidableEq, Repr

/-- Modelled from the spec: ScriptObject::DoCommand, declared in
script_object.hpp but defined outside the snippet.  The engine command
dispatcher is the parameter submit, mapping the current world and the command
to an outcome and the mutated world.  Contract of spec section 4.3: require
CanSuspend, else fail fast with ERR_PRECONDITION_FAILED; if a mode hook is
installed and returns false, compute costs without mutating the world and
report success; otherwise submit, take the mutated world and update
last_cost, last_cmd_result, last_error on failure and the new entity id. -/
def DoCommand (submit : Nat → Cmd → CmdOutcome × Nat) (c : Cmd) (s : ScriptState) :
    Bool × ScriptState :=
  if CanSuspend s = false then
    (false, SetLastError ERR_PRECONDITION_FAILED s)
  else
    let r := submit s.world c
    match (currentCtx s).mode_proc with
    | some false =>
        (true, updCtx s (fun cx => { cx with last_cost := r.1.cost, last_cmd_result := true }))
    | _ =>
        (r.1.success, updCtx { s with world := r.2 } (fun cx =>
          { cx with
            last_cost := r.1.cost,
            last_cmd_result := r.1.success,
            last_error := if r.1.success then cx.last_error else r.1.error,
            new_vehicle_id := r.1.new_vehicle_id.getD cx.new_vehicle_id }))

/-- Run a sequence of SetCallbackVariable operations. -/
def runCallbackSets (s : ScriptState) : List (Nat × Int) → ScriptState
  | [] => s
  | (i, v) :: rest => runCallbackSets (SetCallbackVariable i v s) rest

/-- Claim C1: for nested scoped activations, with B entered on top of any
prior state and A entered inside B, the active instance after A ends equals
the active instance before A began, which is the active instance inside B;
ending B restores the original state, pop handing the top back to the saved
previous top under the LIFO discipline. -/
theorem scoped_activation_lifo_restores (act0 : Option Nat) (b a : Nat) :
    ActiveInstance_destroy (ActiveInstance_create a (ActiveInstance_create b act0).2).1
        (ActiveInstance_create a (ActiveInstance_create b act0).2).2 =
      (ActiveInstance_create b act0).2 ∧
    (ActiveInstance_create b act0).2 = some b ∧
    ActiveInstance_destroy (ActiveInstance_create b act0).1
        (ActiveInstance_destroy (ActiveInstance_create a (ActiveInstance_create b act0).2).1
          (ActiveInstance_create a (ActiveInstance_create b act0).2).2) = act0 :=
  ⟨rfl, rfl, rfl⟩

/-- Claim C5: when CanSuspend is false, DoCommand fails fast: it returns
false with the state only changed by recording ERR_PRECONDITION_FAILED (in
particular the dispatcher is never consulted and the world is unchanged), and
GetLastError afterwards reads ERR_PRECONDITION_FAILED. -/
theorem doCommand_cannot_suspend_fails (submit : Nat → Cmd → CmdOutcome × Nat) (c : Cmd)
    (s : ScriptState) (h : CanSuspend s = false) :
    DoCommand submit c s = (false, SetLastError ERR_PRECONDITION_FAILED s) ∧
    (DoCommand submit c s).2.world = s.world ∧
    GetLastError (DoCommand submit c s).2 = ERR_PRECONDITION_FAILED := by
  have h1 : DoCommand submit c s = (false, SetLastError ERR_PRECONDITION_FAILED s) := by
    unfold DoCommand
    rw [h]
    rfl
  refine ⟨h1, ?_, ?_⟩
  · rw [h1]
    rfl
  · rw [h1]
    simp [GetLastError, SetLastError, updCtx, currentCtx]

/-- A concrete dispatcher: every command succeeds, costs 500 and bumps the
world counter. -/
def exSubmit : Nat → Cmd → CmdOutcome × Nat :=
  fun w _ => ({ success := true, cost := 500, error := ERR_NONE, new_vehicle_id := none }, w + 1)

/-- A concrete command. -/
def exCmd : Cmd := { tile := 0, p1 := 0, p2 := 0, cmd := 0 }

/-- A state in which DoCommands are disallowed, so CanSuspend is false. -/
def exStateNoSuspend : ScriptState := SetAllowDoCommand false (initScriptState 0)

/-- Witness for claim C5: with allow_do_command cleared, DoCommand fails with
ERR_PRECONDITION_FAILED and the world stays put. -/
theorem doCommand_cannot_suspend_fails_witness :
    CanSuspend exStateNoSuspend = false ∧
    (DoCommand exSubmit exCmd exStateNoSuspend =
        (false, SetLastError ERR_PRECONDITION_FAILED exStateNoSuspend) ∧
      (DoCommand exSubmit exCmd exStateNoSuspend).2.world = exStateNoSuspend.world ∧
      GetLastError (DoCommand exSubmit exCmd exStateNoSuspend).2 = ERR_PRECONDITION_FAILED) :=
  ⟨by decide, doCommand_cannot_suspend_fails exSubmit exCmd exStateNoSuspend (by decide)⟩

/-- A state with a mode hook installed that returns false, while DoCommands
are disallowed, so CanSuspend is false. -/
def exStateModeNoSuspend : ScriptState :=
  SetDoCommandMode (some false) (some 7) (SetAllowDoCommand false (initScriptState 0))

/-- Counterexample to claim C6 as stated: a DoCommand invocation made while a
mode hook returning false is installed, but with CanSuspend false; the call
returns failure and last_cost is not updated to the computed cost, because
the CanSuspend check of the contract precedes the mode-hook consultation. -/
theorem doCommand_dry_run_counterexample :
    GetDoCommandMode exStateModeNoSuspend = some false ∧
    ¬ ((DoCommand exSubmit exCmd exStateModeNoSuspend).1 = true ∧
        GetLastCost (DoCommand exSubmit exCmd exStateModeNoSuspend).2 =
          (exSubmit exStateModeNoSuspend.world exCmd).1.cost) := by
  decide

/-- Claim C6 as amended: provided CanSuspend holds, a DoCommand invocation
with a mode hook installed that returns false leaves the engine world
unchanged, updates last_cost to the computed cost, and returns success with
last_cmd_result set to true. -/
theorem doCommand_dry_run_frame (submit : Nat → Cmd → CmdOutcome × Nat) (c : Cmd)
    (s : ScriptState) (hsus : CanSuspend s = true) (hmode : GetDoCommandMode s = some false) :
    (DoCommand submit c s).1 = true ∧
    (DoCommand submit c s).2.world = s.world ∧
    GetLastCost (DoCommand submit c s).2 = (submit s.world c).1.cost ∧
    GetLastCommandRes (DoCommand submit c s).2 = true := by
  have hm : (currentCtx s).mode_proc = some false := hmode
  unfold DoCommand
  rw [hsus, hm]
  simp [GetLastCost, GetLastCommandRes, updCtx, currentCtx]

/-- A state with a mode hook installed that returns false and CanSuspend
true. -/
def exStateMode : ScriptState := SetDoCommandMode (some false) (some 7) (initScriptState 0)

/-- Witness for the amended claim C6: the dry-run returns success, leaves the
world untouched although the dispatcher would have bumped it, and records the
computed cost of 500. -/
theorem doCommand_dry_run_frame_witness :
    CanSuspend exStateMode = true ∧ GetDoCommandMode exStateMode = some false ∧
    ((DoCommand exSubmit exCmd exStateMode).1 = true ∧
      (DoCommand exSubmit exCmd exStateMode).2.world = exStateMode.world ∧
      GetLastCost (DoCommand exSubmit exCmd exStateMode).2 =
        (exSubmit exStateMode.world exCmd).1.cost ∧
      GetLastCommandRes (DoCommand exSubmit exCmd exStateMode).2 = true) :=
  ⟨by decide, by decide, doCommand_dry_run_frame exSubmit exCmd exStateMode (by decide) (by decide)⟩

theorem GetDoCommandCosts_increase (v : Int) (s : ScriptState) :
    GetDoCommandCosts (IncreaseDoCommandCosts v s) = moneySatAdd (GetDoCommandCosts s) v := by
  simp [GetDoCommandCosts, IncreaseDoCommandCosts, updCtx, currentCtx]

theorem moneySatAdd_apply_twice (c a b : Int) (ha : 0 ≤ a) (hb : 0 ≤ b)
    (hc : MONEY_MIN ≤ c) :
    moneySatAdd (moneySatAdd c a) b = moneyClamp (c + a + b) := by
  unfold moneySatAdd moneyClamp MONEY_MAX MONEY_MIN at *
  split_ifs <;> omega

/-- A state whose costs accumulator holds 1. -/
def exStateCosts1 : ScriptState := SetDoCommandCosts 1 (initScriptState 0)

/-- Counterexample to claim C7 as stated: from costs 1, adding MONEY_MAX
saturates the accumulator to MONEY_MAX, and then adding -1 lands on
MONEY_MAX - 1, while the saturated value of 1 + MONEY_MAX + -1 is MONEY_MAX;
with a negative second amount after an intermediate saturation the
accumulator is not the saturated three-way sum. -/
theorem increase_costs_counterexample :
    GetDoCommandCosts
        (IncreaseDoCommandCosts (-1) (IncreaseDoCommandCosts MONEY_MAX exStateCosts1)) ≠
      moneyClamp (GetDoCommandCosts exStateCosts1 + MONEY_MAX + (-1)) := by
  decide

/-- Claim C7 as amended: for nonnegative amounts a and b (costs never
decrease within a scripted transaction) and an accumulator within the Money
range, IncreaseDoCommandCosts(a) then IncreaseDoCommandCosts(b) leaves the
accumulator at costs + a + b, saturating on overflow to MONEY_MAX instead of
wrapping. -/
theorem increase_costs_saturating_sum (s : ScriptState) (a b : Int)
    (ha : 0 ≤ a) (hb : 0 ≤ b) (hc : MONEY_MIN ≤ GetDoCommandCosts s) :
    GetDoCommandCosts (IncreaseDoCommandCosts b (IncreaseDoCommandCosts a s)) =
      moneyClamp (GetDoCommandCosts s + a + b) := by
  rw [GetDoCommandCosts_increase, GetDoCommandCosts_increase]
  exact moneySatAdd_apply_twice _ a b ha hb hc

/-- A state whose costs accumulator holds 0, as in scenario S2. -/
def exStateCosts0 : ScriptState := SetDoCommandCosts 0 (initScriptState 0)

/-- Witness for the amended claim C7: scenario S2, 0 then +100 then +250
gives the saturated sum, which is 350. -/
theorem increase_costs_saturating_sum_witness :
    (0:Int) ≤ 100 ∧ (0:Int) ≤ 250 ∧ MONEY_MIN ≤ GetDoCommandCosts exStateCosts0 ∧
    GetDoCommandCosts (IncreaseDoCommandCosts 250 (IncreaseDoCommandCosts 100 exStateCosts0)) =
      moneyClamp (GetDoCommandCosts exStateCosts0 + 100 + 250) :=
  ⟨by decide, by decide, by decide,
    increase_costs_saturating_sum exStateCosts0 100 250 (by decide) (by decide) (by decide)⟩

example :
    GetDoCommandCosts (IncreaseDoCommandCosts 250 (IncreaseDoCommandCosts 100 exStateCosts0)) =
      350 := by
  decide

/-- Claim C8: for every accessor pair the header declares and every value,
writing through Set on the active instance and then reading through Get on
the same active instance with no intervening Set returns the written value;
for the index-addressed callback slots this covers every index of the agreed
bounded range. -/
theorem set_get_roundtrip (s : ScriptState) :
    (∀ e : Nat, GetLastError (SetLastError e s) = e) ∧
    (∀ r : Nat, GetRoadType (SetRoadType r s) = r) ∧
    (∀ r : Nat, GetRailType (SetRailType r s) = r) ∧
    (∀ (p : Option Bool) (o : Option Nat), GetDoCommandMode (SetDoCommandMode p o s) = p) ∧
    (∀ (p : Option Bool) (o : Option Nat),
      GetDoCommandModeInstance (SetDoCommandMode p o s) = o) ∧
    (∀ t : Nat, GetDoCommandDelay (SetDoCommandDelay t s) = t) ∧
    (∀ m : Int, GetDoCommandCosts (SetDoCommandCosts m s) = m) ∧
    (∀ m : Int, GetLastCost (SetLastCost m s) = m) ∧
    (∀ b : Bool, GetLastCommandRes (SetLastCommandRes b s) = b) ∧
    (∀ b : Bool, GetAllowDoCommand (SetAllowDoCommand b s) = b) ∧
    (∀ v : Nat, GetNewVehicleID (SetNewVehicleID v s) = v) ∧
    (∀ v : Nat, GetNewSignID (SetNewSignID v s) = v) ∧
    (∀ v : Nat, GetNewGroupID (SetNewGroupID v s) = v) ∧
    (∀ v : Nat, GetNewTunnelEndtile (SetNewTunnelEndtile v s) = v) ∧
    (∀ (i : Fin CALLBACK_VAR_COUNT) (v : Int),
      GetCallbackVariable i.val (SetCallbackVariable i.val v s) = v) := by
  refine ⟨?_, ?_, ?_, ?_, ?_, ?_, ?_, ?_, ?_, ?_, ?_, ?_, ?_, ?_, ?_⟩ <;>
  · intros
    simp [GetLastError, SetLastError, GetRoadType, SetRoadType, GetRailType, SetRailType,
      GetDoCommandMode, GetDoCommandModeInstance, SetDoCommandMode, GetDoCommandDelay,
      SetDoCommandDelay, GetDoCommandCosts, SetDoCommandCosts, GetLastCost, SetLastCost,
      GetLastCommandRes, SetLastCommandRes, GetAllowDoCommand, SetAllowDoCommand,
      GetNewVehicleID, SetNewVehicleID, GetNewSignID, SetNewSignID, GetNewGroupID,
      SetNewGroupID, GetNewTunnelEndtile, SetNewTunnelEndtile, GetCallbackVariable,
      SetCallbackVariable, Fin.is_lt, updCtx, currentCtx]

theorem getCallbackVariable_set_ne (i j : Nat) (v : Int) (s : ScriptState) (h : j ≠ i) :
    GetCallbackVariable i (SetCallbackVariable j v s) = GetCallbackVariable i s := by
  by_cases hj : j < CALLBACK_VAR_COUNT
  · by_cases hi : i < CALLBACK_VAR_COUNT
    · simp [GetCallbackVariable, SetCallbackVariable, updCtx, currentCtx, hj, hi, Ne.symm h]
    · simp [GetCallbackVariable, SetCallbackVariable, hj, hi]
  · simp [SetCallbackVariable, hj]

/-- Claim C9: starting from fresh per-instance contexts, after any sequence
of SetCallbackVariable operations none of which targets index i of the
agreed bounded range, GetCallbackVariable(i) returns zero. -/
theorem callback_variable_unset_zero (inst : Nat) (ops : List (Nat × Int)) (i : Nat)
    (hi : i < CALLBACK_VAR_COUNT) (havoid : ∀ p ∈ ops, p.1 ≠ i) :
    GetCallbackVariable i (runCallbackSets (initScriptState inst) ops) = 0 := by
  have key : ∀ (l : List (Nat × Int)) (s : ScriptState), (∀ p ∈ l, p.1 ≠ i) →
      GetCallbackVariable i s = 0 → GetCallbackVariable i (runCallbackSets s l) = 0 := by
    intro l
    induction l with
    | nil => intro s _ h0; exact h0
    | cons p rest ih =>
      intro s hav h0
      obtain ⟨j, v⟩ := p
      rw [runCallbackSets]
      apply ih _ (fun q hq => hav q (List.mem_cons_of_mem _ hq))
      rw [getCallbackVariable_set_ne i j v s (hav (j, v) (List.mem_cons_self _ _))]
      exact h0
  apply key ops _ havoid
  unfold GetCallbackVariable
  rw [if_pos hi]
  rfl

/-- Witness for claim C9: after writing slots 1 and 3, slot 0 of the bounded
range still reads zero. -/
theorem callback_variable_unset_zero_witness :
    0 < CALLBACK_VAR_COUNT ∧ (∀ p ∈ [((1:Nat), (5:Int)), (3, 7)], p.1 ≠ 0) ∧
    GetCallbackVariable 0 (runCallbackSets (initScriptState 0) [(1, 5), (3, 7)]) = 0 :=
  ⟨by decide, by decide,
    callback_variable_unset_zero 0 [(1, 5), (3, 7)] 0 (by decide) (by decide)⟩
